import Mathlib

/-!
Shallow embedding of `sys/aodvv2/writer.c` (AODVv2 RREQ/RREP packet writer)
from the btcven radio-firmware repository, together with the pieces of its
environment that the file uses (`seqnum` module, protocol constants, RFC 5444
writer engine effects), and theorems settling the specification claims.

Modelling conventions:
* The mutable globals `_target` and the sequence-number counter become an
  explicit `WriterState` threaded through the send operations.
* Pointers that the C code asserts non-NULL become `Option` arguments; the
  `assert` abort is the `none` result.
* The RFC 5444 engine is represented by its observable effect: composing one
  message (header + address entries + address TLVs, exactly as the registered
  callbacks emit them) and flushing it once through the transport sender.
* The transport sender callback is a function parameter; every invocation of
  it during a send is recorded in the `sends` trace of the result.
-/

namespace RadioFirmware

/-- A network address (`struct netaddr`); its contents are opaque to
`writer.c`, which only copies it, so it is modelled as a bare `Nat`. -/
abbrev Netaddr := Nat

/-- Per-node data of `aodvv2_packet_data_t` (`node_data_t`): address,
16-bit sequence number and 8-bit metric. -/
structure NodeData where
  addr : Netaddr
  seqnum : Nat
  metric : Nat
deriving Repr, DecidableEq

/-- `aodvv2_packet_data_t`: the caller-supplied route-discovery parameters. -/
structure PacketData where
  origNode : NodeData
  targNode : NodeData
  hoplimit : Nat
deriving Repr, DecidableEq

/-- The two message kinds registered by `writer.c`
(`RFC5444_MSGTYPE_RREQ` / `RFC5444_MSGTYPE_RREP`). -/
inductive MsgType
  | RREQ
  | RREP
deriving Repr, DecidableEq, BEq

/-- Address-TLV kinds used by `writer.c`
(`RFC5444_MSGTLV_ORIGSEQNUM` / `RFC5444_MSGTLV_TARGSEQNUM` /
`RFC5444_MSGTLV_METRIC`). -/
inductive TlvType
  | ORIGSEQNUM
  | TARGSEQNUM
  | METRIC
deriving Repr, DecidableEq, BEq

/-- Modelled from the spec: the protocol's maximum hop count constant
`AODVV2_MAX_HOPCOUNT`. Its defining header is not under `src/`; the claims
depend only on its identity, not its numeric value. -/
def AODVV2_MAX_HOPCOUNT : Nat := 250

/-- Modelled from the spec: the protocol's default metric extended sub-type
`AODVV2_DEFAULT_METRIC_TYPE`. Its defining header is not under `src/`; the
claims depend only on its identity, not its numeric value. -/
def AODVV2_DEFAULT_METRIC_TYPE : Nat := 3

/-- Modelled from the spec: `get() -> u16` of the Sequence Number Store
"returns current value without side effects" (`sys/aodvv2/seqnum.c` is not
under `src/`). -/
def aodvv2_seqnum_get (s : Nat) : Nat := s

/-- Modelled from the spec: `increment()` of the Sequence Number Store
"advances to the next value, wrapping past the maximum back to 1 (0 is
reserved/invalid and must never be produced)" (`sys/aodvv2/seqnum.c` is not
under `src/`). The counter is 16-bit, so the maximum is 65535. -/
def aodvv2_seqnum_inc (s : Nat) : Nat :=
  if 65535 ≤ s then 1 else s + 1

/-- One entry of an address-TLV type table
(`struct rfc5444_writer_tlvtype`): TLV type plus extended sub-type
(0 when the C designated initializer leaves `.exttype` unset). -/
structure TlvTypeDecl where
  type : TlvType
  exttype : Nat := 0
deriving Repr, DecidableEq

/-- `_rreq_addrtlvs` (writer.c lines 59-66): the RREQ address-TLV table has
an ORIGSEQNUM entry and a METRIC entry carrying the default metric
sub-type; the remaining index is zero-initialized and never used. -/
def rreq_addrtlvs : TlvType → TlvTypeDecl
  | TlvType.ORIGSEQNUM => { type := TlvType.ORIGSEQNUM }
  | TlvType.METRIC =>
      { type := TlvType.METRIC, exttype := AODVV2_DEFAULT_METRIC_TYPE }
  | t => { type := t }

/-- `_rrep_addrtlvs` (writer.c lines 79-87): the RREP address-TLV table has
ORIGSEQNUM, TARGSEQNUM and METRIC entries, METRIC carrying the default
metric sub-type. -/
def rrep_addrtlvs : TlvType → TlvTypeDecl
  | TlvType.ORIGSEQNUM => { type := TlvType.ORIGSEQNUM }
  | TlvType.TARGSEQNUM => { type := TlvType.TARGSEQNUM }
  | TlvType.METRIC =>
      { type := TlvType.METRIC, exttype := AODVV2_DEFAULT_METRIC_TYPE }

/-- The message header flags and hop-limit value emitted through
`rfc5444_writer_set_msg_header` / `rfc5444_writer_set_msg_hoplimit`. -/
structure Header where
  has_originator : Bool
  has_hopcount : Bool
  has_hoplimit : Bool
  has_seqno : Bool
  hoplimit : Nat
deriving Repr, DecidableEq

/-- One address added through `rfc5444_writer_add_address`: the address and
its mandatory flag. -/
structure AddressEntry where
  addr : Netaddr
  mandatory : Bool
deriving Repr, DecidableEq

/-- One address TLV added through `rfc5444_writer_add_addrtlv`: the address
it is attached to, the TLV-type table entry, the value written, and the
`allow_dup` flag passed by the call. -/
structure AddrTlv where
  onAddr : Netaddr
  decl : TlvTypeDecl
  value : Nat
  allow_dup : Bool
deriving Repr, DecidableEq

/-- A composed RFC 5444 message as the registered callbacks shape it. -/
structure Msg where
  msg_type : MsgType
  header : Header
  addrs : List AddressEntry
  tlvs : List AddrTlv
deriving Repr, DecidableEq

/-- The fields of the singleton `aodvv2_writer_target_t _target` that
`writer.c` reads and writes. -/
structure Target where
  packet_data : PacketData
  type : MsgType
  target_addr : Netaddr
deriving Repr, DecidableEq

/-- The writer's mutable state: the singleton outbound target plus the
node's sequence-number counter. -/
structure WriterState where
  target : Target
  seqnum : Nat
deriving Repr, DecidableEq

/-- Modelled from the spec: the transport sender callback
(`write_packet_func_ptr`, whose typedef lives in `writer.h`, not under
`src/`) receives the serialized message and the destination and
"return/signal success or failure". -/
abbrev Sender := Msg → Netaddr → Bool

/-- `_cb_addMessageHeader` (writer.c lines 93-99): declares
"no originator, no hopcount, has hoplimit, no seqno" and takes the
hop-limit value from `_target.packet_data.hoplimit`. -/
def cb_addMessageHeader (t : Target) : Header :=
  { has_originator := false
    has_hopcount := false
    has_hoplimit := true
    has_seqno := false
    hoplimit := t.packet_data.hoplimit }

/-- `_cb_rreq_add_addresses` (writer.c lines 104-127): adds the mandatory
originator and target addresses, then attaches the ORIGSEQNUM and METRIC
TLVs (both with `allow_dup = false`) to the originator address. -/
def cb_rreq_add_addresses (t : Target) :
    List AddressEntry × List AddrTlv :=
  let orig_node_addr := t.packet_data.origNode.addr
  ( [ { addr := orig_node_addr, mandatory := true },
      { addr := t.packet_data.targNode.addr, mandatory := true } ],
    [ { onAddr := orig_node_addr
        decl := rreq_addrtlvs TlvType.ORIGSEQNUM
        value := t.packet_data.origNode.seqnum
        allow_dup := false },
      { onAddr := orig_node_addr
        decl := rreq_addrtlvs TlvType.METRIC
        value := t.packet_data.origNode.metric
        allow_dup := false } ] )

/-- `_cb_rrep_add_addresses` (writer.c lines 132-166): reads the counter,
increments it, adds the mandatory originator and target addresses, and
attaches ORIGSEQNUM (originator), TARGSEQNUM (target, pre-increment
counter value) and METRIC (target, the target node's metric) TLVs, all with
`allow_dup = false`. Returns the emitted entries and the updated counter. -/
def cb_rrep_add_addresses (t : Target) (sn : Nat) :
    (List AddressEntry × List AddrTlv) × Nat :=
  let orig_node_seqnum := t.packet_data.origNode.seqnum
  let targ_node_seqnum := aodvv2_seqnum_get sn
  let sn1 := aodvv2_seqnum_inc sn
  let targ_node_hopct := t.packet_data.targNode.metric
  let orig_node_addr := t.packet_data.origNode.addr
  let targ_node_addr := t.packet_data.targNode.addr
  ( ( [ { addr := orig_node_addr, mandatory := true },
        { addr := targ_node_addr, mandatory := true } ],
      [ { onAddr := orig_node_addr
          decl := rrep_addrtlvs TlvType.ORIGSEQNUM
          value := orig_node_seqnum
          allow_dup := false },
        { onAddr := targ_node_addr
          decl := rrep_addrtlvs TlvType.TARGSEQNUM
          value := targ_node_seqnum
          allow_dup := false },
        { onAddr := targ_node_addr
          decl := rrep_addrtlvs TlvType.METRIC
          value := targ_node_hopct
          allow_dup := false } ] ),
    sn1 )

/-- Everything a send operation produces: the writer state after the call,
the composed message handed to the flush step, the trace of results the
transport sender reported (one entry per invocation), and the caller's
`packet_data` / `next_hop` memory as it stands when the call returns. -/
structure SendResult where
  st : WriterState
  msg : Msg
  sends : List Bool
  caller_packet_data : PacketData
  caller_next_hop : Netaddr
deriving Repr, DecidableEq

/-- `aodvv2_packet_writer_send_rreq` (writer.c lines 212-233), statement by
statement under the lock: copy `packet_data` into `_target.packet_data`,
set `_target.type = RREQ`, set `_target.packet_data.hoplimit` from the
caller's `hoplimit`, copy `next_hop` into `_target.target_addr`, compose
the RREQ (header callback + RREQ content provider), then flush once through
the sender. A NULL `packet_data` or `next_hop` trips the `assert`
(result `none`). The C function itself returns `void`. -/
def aodvv2_packet_writer_send_rreq (sender : Sender) (s : WriterState)
    (packet_data : Option PacketData) (next_hop : Option Netaddr) :
    Option SendResult :=
  match packet_data, next_hop with
  | some pd, some nh =>
    let t1 : Target := { s.target with packet_data := pd }
    let t2 : Target := { t1 with type := MsgType.RREQ }
    let t3 : Target :=
      { t2 with packet_data := { t2.packet_data with hoplimit := pd.hoplimit } }
    let t4 : Target := { t3 with target_addr := nh }
    let hdr := cb_addMessageHeader t4
    let body := cb_rreq_add_addresses t4
    let m : Msg :=
      { msg_type := MsgType.RREQ, header := hdr
        addrs := body.1, tlvs := body.2 }
    let r := sender m t4.target_addr
    some { st := { target := t4, seqnum := s.seqnum }
           msg := m
           sends := [r]
           caller_packet_data := pd
           caller_next_hop := nh }
  | _, _ => none

/-- `aodvv2_packet_writer_send_rrep` (writer.c lines 241-260), statement by
statement under the lock: copy `packet_data` into `_target.packet_data`,
set `_target.type = RREP`, override `_target.packet_data.hoplimit` with
`AODVV2_MAX_HOPCOUNT`, copy `next_hop` into `_target.target_addr`, compose
the RREP (header callback + RREP content provider, which advances the
sequence-number counter), then flush once through the sender. A NULL
argument trips the `assert` (result `none`). The C function itself returns
`void`. -/
def aodvv2_packet_writer_send_rrep (sender : Sender) (s : WriterState)
    (packet_data : Option PacketData) (next_hop : Option Netaddr) :
    Option SendResult :=
  match packet_data, next_hop with
  | some pd, some nh =>
    let t1 : Target := { s.target with packet_data := pd }
    let t2 : Target := { t1 with type := MsgType.RREP }
    let t3 : Target :=
      { t2 with packet_data :=
          { t2.packet_data with hoplimit := AODVV2_MAX_HOPCOUNT } }
    let t4 : Target := { t3 with target_addr := nh }
    let hdr := cb_addMessageHeader t4
    let bodySn := cb_rrep_add_addresses t4 s.seqnum
    let m : Msg :=
      { msg_type := MsgType.RREP, header := hdr
        addrs := bodySn.1.1, tlvs := bodySn.1.2 }
    let r := sender m t4.target_addr
    some { st := { target := t4, seqnum := bodySn.2 }
           msg := m
           sends := [r]
           caller_packet_data := pd
           caller_next_hop := nh }
  | _, _ => none

/-- Look up the value of the first TLV of the given type in a message. -/
def msg_tlv_value (m : Msg) (ty : TlvType) : Option Nat :=
  (m.tlvs.find? (fun tlv => tlv.decl.type == ty)).map (fun tlv => tlv.value)

/-- The part of a send's outcome the caller can observe as a result of the
call: the writer state, the composed message, and the caller's own memory.
The sender-result trace is excluded because `writer.c` discards it (both
send functions return `void`). -/
def callerView (r : SendResult) :
    WriterState × Msg × PacketData × Netaddr :=
  (r.st, r.msg, r.caller_packet_data, r.caller_next_hop)

/-- The header-construction callback symbols occurring in `writer.c`:
`_cb_add_message_header` is forward-declared at line 31 with internal
linkage but no definition follows anywhere in the translation unit;
`_cb_addMessageHeader` is defined at lines 93-99. -/
inductive HeaderCallbackSymbol
  | add_message_header
  | addMessageHeader
deriving Repr, DecidableEq

/-- The header-construction callbacks that `writer.c` actually defines. -/
def definedHeaderCallbacks : List HeaderCallbackSymbol :=
  [HeaderCallbackSymbol.addMessageHeader]

/-- The symbol `aodvv2_packet_writer_init` stores into
`_rreq_msg->addMessageHeader` (writer.c line 208). -/
def rreq_bound_header_callback : HeaderCallbackSymbol :=
  HeaderCallbackSymbol.add_message_header

/-- The symbol `aodvv2_packet_writer_init` stores into
`_rrep_msg->addMessageHeader` (writer.c line 209). -/
def rrep_bound_header_callback : HeaderCallbackSymbol :=
  HeaderCallbackSymbol.add_message_header

/-- Concrete route-discovery data used for closed instances. -/
def pd0 : PacketData :=
  { origNode := { addr := 1, seqnum := 5, metric := 0 }
    targNode := { addr := 2, seqnum := 0, metric := 0 }
    hoplimit := 10 }

/-- Concrete next-hop address used for closed instances. -/
def nh0 : Netaddr := 3

/-- Concrete initial target used for closed instances. -/
def t0 : Target :=
  { packet_data := pd0, type := MsgType.RREQ, target_addr := 0 }

/-- Concrete writer state used for closed instances. -/
def st0 : WriterState := { target := t0, seqnum := 7 }

/-- A transport sender that always reports failure. -/
def senderFail : Sender := fun _ _ => false

/-- A transport sender that always reports success. -/
def senderOk : Sender := fun _ _ => true

end RadioFirmware

namespace RadioFirmware

/-- C1: for every valid (non-null) input, `send_rreq` leaves the
sequence-number counter unchanged, `send_rrep` changes it exactly once,
advancing it by exactly one `increment` step, and that advance happens in
the RREP composer callback, the only definition that touches the counter. -/
theorem send_rreq_preserves_send_rrep_advances_seqnum
    (sender : Sender) (s : WriterState) (pd : PacketData) (nh : Netaddr)
    (t : Target) (sn : Nat) :
    (aodvv2_packet_writer_send_rreq sender s (some pd) (some nh)).map
        (fun r => r.st.seqnum) = some s.seqnum
    ∧ (aodvv2_packet_writer_send_rrep sender s (some pd) (some nh)).map
        (fun r => r.st.seqnum) = some (aodvv2_seqnum_inc s.seqnum)
    ∧ (cb_rrep_add_addresses t sn).2 = aodvv2_seqnum_inc sn := by
  refine ⟨rfl, rfl, rfl⟩

/-- C2: the TARGSEQNUM attribute of a composed RREP carries the counter's
value from before the increment of that same call, and a second
`send_rrep` with the same data yields a TARGSEQNUM exactly one increment
step later. -/
theorem send_rrep_targ_seqnum_is_pre_increment
    (sender : Sender) (s : WriterState) (pd : PacketData) (nh : Netaddr) :
    (aodvv2_packet_writer_send_rrep sender s (some pd) (some nh)).map
        (fun r => msg_tlv_value r.msg TlvType.TARGSEQNUM)
      = some (some s.seqnum)
    ∧ ((aodvv2_packet_writer_send_rrep sender s (some pd) (some nh)).bind
        (fun r1 =>
          (aodvv2_packet_writer_send_rrep sender r1.st (some pd)
              (some nh)).map
            (fun r2 => msg_tlv_value r2.msg TlvType.TARGSEQNUM)))
      = some (some (aodvv2_seqnum_inc s.seqnum)) := by
  constructor
  · rfl
  · rfl

/-- C3: the hop-limit recorded for a RREQ (in the outbound target and in
the emitted header) equals the caller's `hoplimit`, while for a RREP it
equals `AODVV2_MAX_HOPCOUNT` whatever the caller's `hoplimit` was. -/
theorem send_rreq_hoplimit_caller_send_rrep_hoplimit_max
    (sender : Sender) (s : WriterState) (pd : PacketData) (nh : Netaddr) :
    (aodvv2_packet_writer_send_rreq sender s (some pd) (some nh)).map
        (fun r => (r.msg.header.hoplimit, r.st.target.packet_data.hoplimit))
      = some (pd.hoplimit, pd.hoplimit)
    ∧ (aodvv2_packet_writer_send_rrep sender s (some pd) (some nh)).map
        (fun r => (r.msg.header.hoplimit, r.st.target.packet_data.hoplimit))
      = some (AODVV2_MAX_HOPCOUNT, AODVV2_MAX_HOPCOUNT) := by
  constructor
  · rfl
  · rfl

/-- C4: every composed RREQ has exactly the originator and target
addresses, both mandatory, and exactly two address TLVs, both attached to
the originator address: ORIGSEQNUM carrying the input's originator seqnum
verbatim, and METRIC tagged with the default metric sub-type. -/
theorem send_rreq_addresses_and_attributes
    (sender : Sender) (s : WriterState) (pd : PacketData) (nh : Netaddr) :
    (aodvv2_packet_writer_send_rreq sender s (some pd) (some nh)).map
        (fun r => (r.msg.addrs, r.msg.tlvs))
      = some
        ( [ { addr := pd.origNode.addr, mandatory := true },
            { addr := pd.targNode.addr, mandatory := true } ],
          [ { onAddr := pd.origNode.addr
              decl := { type := TlvType.ORIGSEQNUM, exttype := 0 }
              value := pd.origNode.seqnum
              allow_dup := false },
            { onAddr := pd.origNode.addr
              decl := { type := TlvType.METRIC
                        exttype := AODVV2_DEFAULT_METRIC_TYPE }
              value := pd.origNode.metric
              allow_dup := false } ] ) := by
  rfl

/-- C5: every composed RREP has exactly the originator and target
addresses, both mandatory, and exactly three address TLVs: ORIGSEQNUM with
the input's originator seqnum on the originator address, TARGSEQNUM with
the pre-increment counter value on the target address, and METRIC with the
input's target metric on the target address. -/
theorem send_rrep_addresses_and_attributes
    (sender : Sender) (s : WriterState) (pd : PacketData) (nh : Netaddr) :
    (aodvv2_packet_writer_send_rrep sender s (some pd) (some nh)).map
        (fun r => (r.msg.addrs, r.msg.tlvs))
      = some
        ( [ { addr := pd.origNode.addr, mandatory := true },
            { addr := pd.targNode.addr, mandatory := true } ],
          [ { onAddr := pd.origNode.addr
              decl := { type := TlvType.ORIGSEQNUM, exttype := 0 }
              value := pd.origNode.seqnum
              allow_dup := false },
            { onAddr := pd.targNode.addr
              decl := { type := TlvType.TARGSEQNUM, exttype := 0 }
              value := s.seqnum
              allow_dup := false },
            { onAddr := pd.targNode.addr
              decl := { type := TlvType.METRIC
                        exttype := AODVV2_DEFAULT_METRIC_TYPE }
              value := pd.targNode.metric
              allow_dup := false } ] ) := by
  rfl

/-- C6: on the 16-bit domain the increment is total, never produces 0, and
wraps past 65535 back to 1; in particular composing one RREP from a
counter at 65535 leaves the counter at 1. -/
theorem seqnum_inc_total_wraps_skipping_zero (s : Nat) (h : s ≤ 65535) :
    (aodvv2_seqnum_inc s ≠ 0
      ∧ aodvv2_seqnum_inc s = if s = 65535 then 1 else s + 1)
    ∧ (aodvv2_packet_writer_send_rrep senderOk { target := t0, seqnum := 65535 }
        (some pd0) (some nh0)).map (fun r => r.st.seqnum) = some 1 := by
  refine ⟨⟨?_, ?_⟩, rfl⟩
  · unfold aodvv2_seqnum_inc
    split <;> omega
  · unfold aodvv2_seqnum_inc
    rcases Nat.lt_or_ge s 65535 with hlt | hge
    · rw [if_neg (by omega), if_neg (by omega)]
    · rw [if_pos (by omega), if_pos (by omega)]

/-- Witness for C6 at `s = 65535`. -/
theorem seqnum_inc_total_wraps_skipping_zero_witness :
    (aodvv2_seqnum_inc 65535 ≠ 0
      ∧ aodvv2_seqnum_inc 65535 = if 65535 = 65535 then 1 else 65535 + 1)
    ∧ (aodvv2_packet_writer_send_rrep senderOk { target := t0, seqnum := 65535 }
        (some pd0) (some nh0)).map (fun r => r.st.seqnum) = some 1 :=
  seqnum_inc_total_wraps_skipping_zero 65535 (by decide)

/-- C7 failing-instance record: `aodvv2_packet_writer_init` binds one and
the same header callback symbol to both message kinds, but that symbol,
`_cb_add_message_header`, is only forward-declared (writer.c line 31) and
never defined; the defined header emitter `_cb_addMessageHeader`
(writer.c lines 93-99) is never bound. -/
theorem header_callback_bound_but_undefined :
    rreq_bound_header_callback = rrep_bound_header_callback
    ∧ rreq_bound_header_callback ∉ definedHeaderCallbacks := by
  constructor
  · rfl
  · decide

/-- C8 counterexample: with the concrete inputs `st0`, `pd0`, `nh0`, a
transport sender that reports failure yields exactly the same
caller-visible outcome as one that reports success — the failure the
sender reported (recorded in the `sends` trace) is discarded, not
propagated to the caller. -/
theorem transport_failure_not_propagated_counterexample :
    ((aodvv2_packet_writer_send_rrep senderFail st0 (some pd0)
        (some nh0)).map callerView
      = (aodvv2_packet_writer_send_rrep senderOk st0 (some pd0)
          (some nh0)).map callerView)
    ∧ (aodvv2_packet_writer_send_rrep senderFail st0 (some pd0)
        (some nh0)).map (fun r => r.sends) = some [false]
    ∧ ((aodvv2_packet_writer_send_rreq senderFail st0 (some pd0)
        (some nh0)).map callerView
      = (aodvv2_packet_writer_send_rreq senderOk st0 (some pd0)
          (some nh0)).map callerView) := by
  refine ⟨rfl, rfl, rfl⟩

/-- C8 amended: each send invokes the transport sender exactly once (no
internal retry), and the result the sender reports never influences what
the caller gets back — the send operations return `void`, so transport
failure is not propagated to the caller. -/
theorem transport_sender_once_result_discarded
    (sd1 sd2 : Sender) (s : WriterState) (pd : PacketData) (nh : Netaddr) :
    (aodvv2_packet_writer_send_rreq sd1 s (some pd) (some nh)).map
        (fun r => r.sends.length) = some 1
    ∧ (aodvv2_packet_writer_send_rrep sd1 s (some pd) (some nh)).map
        (fun r => r.sends.length) = some 1
    ∧ (aodvv2_packet_writer_send_rreq sd1 s (some pd) (some nh)).map
        callerView
      = (aodvv2_packet_writer_send_rreq sd2 s (some pd) (some nh)).map
        callerView
    ∧ (aodvv2_packet_writer_send_rrep sd1 s (some pd) (some nh)).map
        callerView
      = (aodvv2_packet_writer_send_rrep sd2 s (some pd) (some nh)).map
        callerView := by
  refine ⟨rfl, rfl, rfl, rfl⟩

/-- C10: neither send operation modifies the caller-supplied packet data or
next-hop address: both are copied by value into the outbound target, and
the caller's memory is unchanged when the call returns. -/
theorem sends_preserve_caller_memory
    (sender : Sender) (s : WriterState) (pd : PacketData) (nh : Netaddr) :
    (aodvv2_packet_writer_send_rreq sender s (some pd) (some nh)).map
        (fun r => (r.caller_packet_data, r.caller_next_hop))
      = some (pd, nh)
    ∧ (aodvv2_packet_writer_send_rrep sender s (some pd) (some nh)).map
        (fun r => (r.caller_packet_data, r.caller_next_hop))
      = some (pd, nh) := by
  constructor
  · rfl
  · rfl

end RadioFirmware
